import Mathlib

/- Shallow embedding of a minimal model-context-protocol demo consisting of a
   tool host (apps/server.py) exposing the single operation get_knowledge_base
   and an orchestrator (apps/client.py) with process_query and chat_loop.
   Python stdlib behaviour (json.load, json.loads, json.dumps, str(),
   str.strip, str.lower) is modelled by executable Lean functions; the
   language-model completion endpoint and the MCP session are oracles carried
   in an Env record, and the side effects of one process_query call are
   recorded as an explicit event trace. -/

/-- JSON values as produced by json.load and json.loads. Numbers are modelled
as integers; floating-point payloads are outside this development. Objects are
association lists with the lookup semantics of a Python dict. -/
inductive Json where
  | null
  | bool (b : Bool)
  | num (n : Int)
  | str (s : String)
  | arr (xs : List Json)
  | obj (kvs : List (String × Json))

/-- dict lookup: first binding of the key, as dict.get. -/
def jlookup : List (String × Json) → String → Option Json
  | [], _ => none
  | (k, v) :: rest, key => if k == key then some v else jlookup rest key

/-- item.get(key) on a parsed JSON value; none when the value is not a dict
or lacks the key. -/
def jget (j : Json) (key : String) : Option Json :=
  match j with
  | Json.obj kvs => jlookup kvs key
  | _ => none

/-- isinstance(v, dict) on a parsed JSON value. -/
def Json.isObj : Json → Bool
  | Json.obj _ => true
  | _ => false

/-- isinstance(v, list) on a parsed JSON value. -/
def Json.isArr : Json → Bool
  | Json.arr _ => true
  | _ => false

/-- Concatenation of a list of strings. -/
def str_concat : List String → String
  | [] => ""
  | s :: ss => s ++ str_concat ss

mutual

/-- Python repr() of a parsed JSON value, as used for elements rendered
inside containers by str(). -/
def pyRepr : Json → String
  | Json.null => "None"
  | Json.bool b => if b then "True" else "False"
  | Json.num n => toString n
  | Json.str s => "\x27" ++ s ++ "\x27"
  | Json.arr xs => "[" ++ pyReprElems xs ++ "]"
  | Json.obj kvs => "\x7b" ++ pyReprPairs kvs ++ "\x7d"

/-- Comma-separated repr of list elements. -/
def pyReprElems : List Json → String
  | [] => ""
  | [x] => pyRepr x
  | x :: y :: xs => pyRepr x ++ ", " ++ pyReprElems (y :: xs)

/-- Comma-separated repr of dict entries. -/
def pyReprPairs : List (String × Json) → String
  | [] => ""
  | [(k, v)] => "\x27" ++ k ++ "\x27: " ++ pyRepr v
  | (k, v) :: p :: ps => "\x27" ++ k ++ "\x27: " ++ pyRepr v ++ ", " ++ pyReprPairs (p :: ps)

end

/-- Python str() of a parsed JSON value, as applied by f-string
interpolation: a string is itself, anything else is its repr. -/
def pyStr : Json → String
  | Json.str s => s
  | j => pyRepr j

/-- Escape of one character inside a JSON string literal, as json.dumps. -/
def json_escape_char (c : Char) : String :=
  match c with
  | '"' => "\\\""
  | '\\' => "\\\\"
  | '\n' => "\\n"
  | '\t' => "\\t"
  | '\r' => "\\r"
  | _ => String.mk [c]

/-- JSON string literal with quotes, as json.dumps renders a string. -/
def json_quote (s : String) : String :=
  "\"" ++ str_concat (s.data.map json_escape_char) ++ "\""

/-- n spaces. -/
def nspaces (n : Nat) : String :=
  String.mk (List.replicate n ' ')

mutual

/-- json.dumps(v, indent=2) at a given current indentation column. -/
def jdump : Nat → Json → String
  | _, Json.null => "null"
  | _, Json.bool b => if b then "true" else "false"
  | _, Json.num n => toString n
  | _, Json.str s => json_quote s
  | _, Json.arr [] => "[]"
  | lvl, Json.arr (x :: xs) =>
      "[\n" ++ jdump_items (lvl + 2) (x :: xs) ++ "\n" ++ nspaces lvl ++ "]"
  | _, Json.obj [] => "\x7b\x7d"
  | lvl, Json.obj (kv :: kvs) =>
      "\x7b\n" ++ jdump_members (lvl + 2) (kv :: kvs) ++ "\n" ++ nspaces lvl ++ "\x7d"

/-- Indented, comma-and-newline separated dump of array items. -/
def jdump_items : Nat → List Json → String
  | _, [] => ""
  | lvl, [x] => nspaces lvl ++ jdump lvl x
  | lvl, x :: y :: xs => nspaces lvl ++ jdump lvl x ++ ",\n" ++ jdump_items lvl (y :: xs)

/-- Indented, comma-and-newline separated dump of object members. -/
def jdump_members : Nat → List (String × Json) → String
  | _, [] => ""
  | lvl, [(k, v)] => nspaces lvl ++ json_quote k ++ ": " ++ jdump lvl v
  | lvl, (k, v) :: m :: ms =>
      nspaces lvl ++ json_quote k ++ ": " ++ jdump lvl v ++ ",\n" ++ jdump_members lvl (m :: ms)

end

/-- json.dumps(v, indent=2) as called by the server. -/
def json_dumps (j : Json) : String :=
  jdump 0 j

/- ------------------------------------------------------------------ -/
/- Tool host: apps/server.py, get_knowledge_base                       -/
/- ------------------------------------------------------------------ -/

/-- State of the knowledge-base backing file as observed by one call:
present with parsed content, absent (FileNotFoundError), present but not
parseable (json.JSONDecodeError), or failing with some other exception. -/
inductive KBFile where
  | content (kb : Json)
  | missing
  | malformed
  | other_error (msg : String)

/-- The fixed banner the server puts before any rendered knowledge base. -/
def kb_header : String :=
  "Here is the retrieved knowledge base:\n\n"

/-- One Q/A block of the rendered knowledge base. -/
def qa_block (i : Nat) (question answer : String) : String :=
  "Q" ++ toString i ++ ": " ++ question ++ "\nA" ++ toString i ++ ": " ++ answer ++ "\n\n"

/-- Body of one iteration of the rendering loop of get_knowledge_base: a
dict item uses its question and answer fields with defaults, any other item
is rendered as Item i with the index as answer; i is the 1-based position. -/
def render_item (i : Nat) (item : Json) : String :=
  let qa : String × String :=
    match item with
    | Json.obj kvs =>
      (match jlookup kvs "question" with
       | some v => pyStr v
       | none => "No question provided",
       match jlookup kvs "answer" with
       | some v => pyStr v
       | none => "No answer")
    | _ => ("Item " ++ toString i, toString i)
  qa_block i qa.1 qa.2

/-- The rendering loop of get_knowledge_base over the enumerated list,
starting at index i. -/
def render_items : Nat → List Json → String
  | _, [] => ""
  | i, item :: rest => render_item i item ++ render_items (i + 1) rest

/-- get_knowledge_base of apps/server.py as a function of the state of the
backing file. All failures are folded into the returned text. -/
def get_knowledge_base (file : KBFile) : String :=
  match file with
  | KBFile.content knowledge_base =>
    match knowledge_base with
    | Json.arr items => kb_header ++ render_items 1 items
    | j => kb_header ++ "Knowledge base content: " ++ json_dumps j ++ "\n\n"
  | KBFile.missing => "Error: Knowledge base file not found."
  | KBFile.malformed => "Error: Invalid JSON format in knowledge base file."
  | KBFile.other_error msg => "Error: " ++ msg

/- ------------------------------------------------------------------ -/
/- json.loads: fuel-based parser for the tool-call argument payloads   -/
/- ------------------------------------------------------------------ -/

/-- The four whitespace characters of the JSON grammar. -/
def is_json_ws (c : Char) : Bool :=
  match c with
  | ' ' => true
  | '\n' => true
  | '\t' => true
  | '\r' => true
  | _ => false

/-- Skip JSON whitespace. -/
def skip_ws : List Char → List Char
  | [] => []
  | c :: cs => if is_json_ws c then skip_ws cs else c :: cs

/-- Decode one escape character of a JSON string literal. -/
def esc_char (c : Char) : Option Char :=
  match c with
  | 'n' => some '\n'
  | 't' => some '\t'
  | 'r' => some '\r'
  | '/' => some '/'
  | '\\' => some '\\'
  | '"' => some '"'
  | _ => none

/-- Parse the rest of a JSON string literal after the opening quote,
returning its value and the remaining input. -/
def parse_string_chars : List Char → Option (String × List Char)
  | [] => none
  | '"' :: cs => some ("", cs)
  | '\\' :: e :: cs =>
    (match esc_char e with
     | none => none
     | some ch =>
       match parse_string_chars cs with
       | none => none
       | some (s, r) => some (String.mk (ch :: s.data), r))
  | ['\\'] => none
  | c :: cs =>
    match parse_string_chars cs with
    | none => none
    | some (s, r) => some (String.mk (c :: s.data), r)

/-- Longest digit prefix and the remaining input. -/
def take_digits : List Char → List Char × List Char
  | [] => ([], [])
  | c :: cs =>
    if c.isDigit then
      let p := take_digits cs
      (c :: p.1, p.2)
    else ([], c :: cs)

/-- Decimal digits to a natural number. -/
def digits_to_nat (ds : List Char) : Nat :=
  ds.foldl (fun acc c => acc * 10 + (c.toNat - 48)) 0

/-- Parse an integer JSON number; floating-point forms are rejected by
this model. -/
def parse_number (cs : List Char) : Option (Json × List Char) :=
  let signed : Bool × List Char :=
    match cs with
    | '-' :: r => (true, r)
    | _ => (false, cs)
  match take_digits signed.2 with
  | ([], _) => none
  | (ds, rest) =>
    match rest with
    | '.' :: _ => none
    | 'e' :: _ => none
    | 'E' :: _ => none
    | _ =>
      let n : Int := Int.ofNat (digits_to_nat ds)
      some (Json.num (if signed.1 then -n else n), rest)

mutual

/-- Parse one JSON value; the fuel bounds nesting and is ample for any
input when set from the input length. -/
def parse_value : Nat → List Char → Option (Json × List Char)
  | 0, _ => none
  | fuel + 1, cs =>
    match skip_ws cs with
    | 'n' :: r =>
      (match r with
       | 'u' :: 'l' :: 'l' :: r2 => some (Json.null, r2)
       | _ => none)
    | 't' :: r =>
      (match r with
       | 'r' :: 'u' :: 'e' :: r2 => some (Json.bool true, r2)
       | _ => none)
    | 'f' :: r =>
      (match r with
       | 'a' :: 'l' :: 's' :: 'e' :: r2 => some (Json.bool false, r2)
       | _ => none)
    | '"' :: r =>
      (match parse_string_chars r with
       | some (s, r2) => some (Json.str s, r2)
       | none => none)
    | '[' :: r =>
      (match skip_ws r with
       | ']' :: r2 => some (Json.arr [], r2)
       | r1 =>
         match parse_elements fuel r1 with
         | some (xs, r2) => some (Json.arr xs, r2)
         | none => none)
    | '\x7b' :: r =>
      (match skip_ws r with
       | '\x7d' :: r2 => some (Json.obj [], r2)
       | r1 =>
         match parse_members fuel r1 with
         | some (ms, r2) => some (Json.obj ms, r2)
         | none => none)
    | r => parse_number r

/-- Parse the comma-separated elements of a non-empty array up to the
closing bracket. -/
def parse_elements : Nat → List Char → Option (List Json × List Char)
  | 0, _ => none
  | fuel + 1, cs =>
    match parse_value fuel cs with
    | none => none
    | some (v, r) =>
      match skip_ws r with
      | ',' :: r2 =>
        (match parse_elements fuel r2 with
         | some (xs, r3) => some (v :: xs, r3)
         | none => none)
      | ']' :: r2 => some ([v], r2)
      | _ => none

/-- Parse the comma-separated members of a non-empty object up to the
closing brace. -/
def parse_members : Nat → List Char → Option (List (String × Json) × List Char)
  | 0, _ => none
  | fuel + 1, cs =>
    match skip_ws cs with
    | '"' :: r =>
      (match parse_string_chars r with
       | none => none
       | some (k, r1) =>
         match skip_ws r1 with
         | ':' :: r2 =>
           (match parse_value fuel r2 with
            | none => none
            | some (v, r3) =>
              match skip_ws r3 with
              | ',' :: r4 =>
                (match parse_members fuel r4 with
                 | some (ms, r5) => some ((k, v) :: ms, r5)
                 | none => none)
              | '\x7d' :: r4 => some ([(k, v)], r4)
              | _ => none)
         | _ => none)
    | _ => none

end

/-- json.loads as called on a tool-call argument payload: none models a
raised JSONDecodeError, including trailing garbage. -/
def json_loads (s : String) : Option Json :=
  match parse_value (2 * s.length + 2) s.data with
  | some (v, r) => if (skip_ws r).isEmpty then some v else none
  | none => none

/- ------------------------------------------------------------------ -/
/- Orchestrator: apps/client.py                                        -/
/- ------------------------------------------------------------------ -/

/-- One tool as reported by session.list_tools(). -/
structure McpTool where
  name : String
  description : String
  inputSchema : Json

/-- One entry of the function-calling manifest sent to the model, the
shape built by get_mcp_tools: type is always the literal function. -/
structure ToolManifestEntry where
  type : String
  name : String
  description : String
  parameters : Json

/-- One tool call requested by the model: id, function.name and
function.arguments (a JSON-encoded string). -/
structure ToolCall where
  id : String
  name : String
  args : String

/-- choices[0].message of a completion response: optional text content and
the list of requested tool calls (empty models a None field). -/
structure AssistantMsg where
  content : Option String
  tool_calls : List ToolCall

/-- One message of the conversation assembled by process_query. -/
inductive Msg where
  | user (content : String)
  | assistant (m : AssistantMsg)
  | tool (tool_call_id : String) (content : String)

/-- One request to chat.completions.create. -/
structure ChatRequest where
  model : String
  messages : List Msg
  tools : List ToolManifestEntry
  tool_choice : String

/-- One content block of a tool result; the client reads its text field. -/
structure ContentBlock where
  text : String

/-- Result of session.call_tool: one or more content blocks. -/
structure ToolResult where
  content : List ContentBlock

/-- The environment of one process_query call: the configured model name,
the tools the connected server lists, the completion endpoint and the tool
host, both taken as deterministic oracles. -/
structure Env where
  model : String
  mcp_tools : List McpTool
  complete : ChatRequest → AssistantMsg
  call_tool : String → Json → ToolResult

/-- get_mcp_tools: maps each listed tool into the OpenAI function format. -/
def get_mcp_tools (env : Env) : List ToolManifestEntry :=
  env.mcp_tools.map (fun t => ⟨"function", t.name, t.description, t.inputSchema⟩)

/-- One observable side effect of process_query: a completion request to
the model endpoint or a tool invocation on the tool host. -/
inductive Event where
  | completion (req : ChatRequest)
  | toolInvoke (name : String) (args : Json)

/-- The tool-call loop of process_query: for each requested call in order,
json.loads its arguments, invoke the tool, and append a tool message with
the text of the first content element of the result. A none outcome models
a raised exception (unparseable arguments, or an empty result content when
result.content[0] is read); the trace keeps the events emitted so far. -/
def run_tool_calls (env : Env) :
    List ToolCall → List Msg → List Event → Option (List Msg) × List Event
  | [], messages, trace => (some messages, trace)
  | tc :: rest, messages, trace =>
    match json_loads tc.args with
    | none => (none, trace)
    | some args =>
      let result := env.call_tool tc.name args
      match result.content with
      | [] => (none, trace ++ [Event.toolInvoke tc.name args])
      | first :: _ =>
        run_tool_calls env rest
          (messages ++ [Msg.tool tc.id first.text])
          (trace ++ [Event.toolInvoke tc.name args])

/-- process_query of apps/client.py: first completion with tool_choice
auto; if the reply carries tool calls, run them in order and issue a second
completion with tool_choice none over the extended conversation, returning
its content, else return the first reply content directly. The first
component none models a raised exception; the second is the event trace. -/
def process_query (env : Env) (query : String) :
    Option (Option String) × List Event :=
  let tools := get_mcp_tools env
  let request1 : ChatRequest := ⟨env.model, [Msg.user query], tools, "auto"⟩
  let assistant_message := env.complete request1
  let messages := [Msg.user query, Msg.assistant assistant_message]
  match assistant_message.tool_calls with
  | [] => (some assistant_message.content, [Event.completion request1])
  | tc :: rest =>
    match run_tool_calls env (tc :: rest) messages [Event.completion request1] with
    | (none, trace) => (none, trace)
    | (some msgs, trace) =>
      let request2 : ChatRequest := ⟨env.model, msgs, tools, "none"⟩
      (some (env.complete request2).content, trace ++ [Event.completion request2])

/-- The first completion request process_query issues for a query. -/
def first_request (env : Env) (query : String) : ChatRequest :=
  ⟨env.model, [Msg.user query], get_mcp_tools env, "auto"⟩

/-- The parsed arguments of a tool call, defaulting to null; meaningful
under the hypothesis that json.loads succeeds. -/
def parsed_args (tc : ToolCall) : Json :=
  (json_loads tc.args).getD Json.null

/-- The text of the first content element of a tool result, empty when the
result has no content. -/
def first_content_text (r : ToolResult) : String :=
  match r.content with
  | [] => ""
  | b :: _ => b.text

/-- The tool-role message process_query appends for one requested call. -/
def tool_result_msg (env : Env) (tc : ToolCall) : Msg :=
  Msg.tool tc.id (first_content_text (env.call_tool tc.name (parsed_args tc)))

/-- The invocation event recorded for one requested call. -/
def invoke_event (tc : ToolCall) : Event :=
  Event.toolInvoke tc.name (parsed_args tc)

/-- The second completion request process_query issues when the assistant
message am carried tool calls. -/
def final_request (env : Env) (query : String) (am : AssistantMsg) : ChatRequest :=
  ⟨env.model,
   [Msg.user query, Msg.assistant am] ++ am.tool_calls.map (tool_result_msg env),
   get_mcp_tools env, "none"⟩

/- ------------------------------------------------------------------ -/
/- chat_loop of apps/client.py                                         -/
/- ------------------------------------------------------------------ -/

/-- The characters str.strip removes. -/
def is_py_space (c : Char) : Bool :=
  match c with
  | ' ' => true
  | '\t' => true
  | '\n' => true
  | '\r' => true
  | '\x0b' => true
  | '\x0c' => true
  | _ => false

/-- str.strip(). -/
def py_strip (s : String) : String :=
  String.mk (((s.data.dropWhile is_py_space).reverse.dropWhile is_py_space).reverse)

/-- str.lower(), restricted to the character-wise lowering of Char. -/
def py_lower (s : String) : String :=
  String.mk (s.data.map Char.toLower)

/-- One observable action of the interactive loop. -/
inductive LoopEvent where
  | answer (text : String)
  | error_report (msg : String)
  | goodbye

/-- chat_loop of apps/client.py over a stream of input lines, with
process_query abstracted as a fallible function (Except.error models a
raised exception, caught and reported by the loop). Each iteration strips
the line, exits on the case-insensitive literal quit, and otherwise prints
the answer or the caught error and continues with the next line. -/
def chat_loop (process : String → Except String String) :
    List String → List LoopEvent
  | [] => []
  | line :: rest =>
    let query := py_strip line
    if py_lower query == "quit" then [LoopEvent.goodbye]
    else
      match process query with
      | Except.ok response => LoopEvent.answer response :: chat_loop process rest
      | Except.error e => LoopEvent.error_report e :: chat_loop process rest

/-- 1-based enumeration offsets for stating positions of rendered items. -/
def enum_from {α : Type} (n : Nat) : List α → List (Nat × α)
  | [] => []
  | x :: xs => (n, x) :: enum_from (n + 1) xs

/- ------------------------------------------------------------------ -/
/- Concrete environments and inputs used by the witnesses             -/
/- ------------------------------------------------------------------ -/

/-- An endpoint that answers directly, never requesting a tool call. -/
def env_direct : Env :=
  ⟨"llama3.1", [], fun _ => ⟨some "direct answer", []⟩, fun _ _ => ⟨[]⟩⟩

/-- An endpoint that requests one get_knowledge_base call with empty
arguments on the auto request and answers plainly afterwards; the tool host
returns a single content block. -/
def env_kb : Env :=
  ⟨"llama3.1",
   [⟨"get_knowledge_base", "Retrieve the knowledge base", Json.obj []⟩],
   fun req =>
     if req.tool_choice == "auto" then
       ⟨none, [⟨"call_1", "get_knowledge_base", "\x7b\x7d"⟩]⟩
     else ⟨some "final answer", []⟩,
   fun _ _ => ⟨[⟨"kb text"⟩]⟩⟩

/-- An endpoint that requests two tool calls on the auto request. -/
def env_two : Env :=
  ⟨"llama3.1", [],
   fun req =>
     if req.tool_choice == "auto" then
       ⟨none, [⟨"id_a", "get_knowledge_base", "\x7b\x7d"⟩,
               ⟨"id_b", "other_tool", "\x7b\"k\": 1\x7d"⟩]⟩
     else ⟨some "done", []⟩,
   fun nm _ => ⟨[⟨"result of " ++ nm⟩]⟩⟩

/-- A query processor that fails on one query and succeeds on others. -/
def proc_w : String → Except String String :=
  fun q => if q == "boom" then Except.error "fail" else Except.ok (q ++ " answered")

/-- Two well-formed question/answer records. -/
def kb_items_w : List Json :=
  [Json.obj [("question", Json.str "What is MCP?"), ("answer", Json.str "A protocol.")],
   Json.obj [("question", Json.str "Second question"), ("answer", Json.num 7)]]

/- ------------------------------------------------------------------ -/
/- Theorems                                                            -/
/- ------------------------------------------------------------------ -/

/-- The rendering loop splits over list concatenation, shifting the
1-based index by the length of the first part. -/
theorem render_items_append (xs : List Json) :
    ∀ (ys : List Json) (i : Nat),
      render_items i (xs ++ ys) = render_items i xs ++ render_items (i + xs.length) ys := by
  induction xs with
  | nil => intro ys i; simp [render_items]
  | cons x xs ih =>
    intro ys i
    rw [List.cons_append, render_items, render_items, ih ys (i + 1), String.append_assoc]
    have harith : i + 1 + xs.length = i + (xs.length + 1) := by omega
    rw [harith]
    rfl

/-- Under the hypothesis that every item is a record carrying both fields,
the rendering loop starting at index i produces exactly the Q/A blocks of
the enumerated items. -/
theorem render_items_qa (items : List Json) :
    ∀ i : Nat,
      (∀ it ∈ items, it.isObj = true ∧ (jget it "question").isSome = true ∧
          (jget it "answer").isSome = true) →
      render_items i items =
        str_concat ((enum_from i items).map (fun p =>
          qa_block p.1 (pyStr ((jget p.2 "question").getD Json.null))
            (pyStr ((jget p.2 "answer").getD Json.null)))) := by
  induction items with
  | nil => intro i _; simp [render_items, enum_from, str_concat]
  | cons it rest ih =>
    intro i h
    obtain ⟨hobj, hq, ha⟩ := h it (List.mem_cons_self it rest)
    cases it with
    | null => simp [Json.isObj] at hobj
    | bool b => simp [Json.isObj] at hobj
    | num n => simp [Json.isObj] at hobj
    | str s => simp [Json.isObj] at hobj
    | arr xs => simp [Json.isObj] at hobj
    | obj kvs =>
      obtain ⟨q, hq2⟩ := Option.isSome_iff_exists.mp hq
      obtain ⟨a, ha2⟩ := Option.isSome_iff_exists.mp ha
      simp only [jget] at hq2 ha2
      have hrest := ih (i + 1) (fun t ht => h t (List.mem_cons_of_mem _ ht))
      simp only [render_items, enum_from, List.map_cons, str_concat, hrest,
        render_item, jget, hq2, ha2, Option.getD_some]

/-- C4: for a knowledge base that is a sequence of N records each carrying
question and answer fields, the output of get_knowledge_base is the banner
followed exactly by the blocks Qk: question, Ak: answer for k = 1..N, in
the original order of the records. -/
theorem c4_qa_records (items : List Json)
    (h : ∀ it ∈ items, it.isObj = true ∧ (jget it "question").isSome = true ∧
        (jget it "answer").isSome = true) :
    get_knowledge_base (KBFile.content (Json.arr items)) =
      kb_header ++ str_concat ((enum_from 1 items).map (fun p =>
        qa_block p.1 (pyStr ((jget p.2 "question").getD Json.null))
          (pyStr ((jget p.2 "answer").getD Json.null)))) := by
  simp only [get_knowledge_base]
  rw [render_items_qa items 1 h]

/-- Witness for C4 at a two-record knowledge base. -/
theorem c4_qa_records_witness :
    get_knowledge_base (KBFile.content (Json.arr kb_items_w)) =
      kb_header ++ str_concat ((enum_from 1 kb_items_w).map (fun p =>
        qa_block p.1 (pyStr ((jget p.2 "question").getD Json.null))
          (pyStr ((jget p.2 "answer").getD Json.null)))) :=
  c4_qa_records kb_items_w (by decide)

/-- C5: for a knowledge base value that is not a sequence, the output of
get_knowledge_base is the banner followed by the pretty-printed dump of the
loaded value prefixed with the literal Knowledge base content. -/
theorem c5_non_list_dump (j : Json) (h : ∀ xs, j ≠ Json.arr xs) :
    get_knowledge_base (KBFile.content j) =
      kb_header ++ "Knowledge base content: " ++ json_dumps j ++ "\n\n" := by
  cases j with
  | arr xs => exact absurd rfl (h xs)
  | null => rfl
  | bool b => rfl
  | num n => rfl
  | str s => rfl
  | obj kvs => rfl

/-- Witness for C5 at a single-object knowledge base. -/
theorem c5_non_list_dump_witness :
    get_knowledge_base (KBFile.content (Json.obj [("k", Json.num 3)])) =
      kb_header ++ "Knowledge base content: " ++
        json_dumps (Json.obj [("k", Json.num 3)]) ++ "\n\n" :=
  c5_non_list_dump (Json.obj [("k", Json.num 3)]) (fun _ h => Json.noConfusion h)

/-- C6: an absent backing file yields exactly the not-found error text as a
normal return value. -/
theorem c6_missing_file :
    get_knowledge_base KBFile.missing = "Error: Knowledge base file not found." :=
  rfl

/-- C7: a backing file whose content is not parseable as JSON yields
exactly the invalid-format error text as a normal return value. -/
theorem c7_malformed_file :
    get_knowledge_base KBFile.malformed =
      "Error: Invalid JSON format in knowledge base file." :=
  rfl

/-- C10: in a sequence knowledge base, a non-record element at 1-based
position k is rendered as the pair Qk: Item k and Ak: k, the answer being
the index as text; and a record element uses the defaults No question
provided and No answer for whichever of its fields is missing. -/
theorem c10_defaults_and_nondict (pre post : List Json) (it : Json)
    (kvs : List (String × Json)) :
    (it.isObj = false →
      get_knowledge_base (KBFile.content (Json.arr (pre ++ it :: post))) =
        kb_header ++ render_items 1 pre ++
          qa_block (pre.length + 1) ("Item " ++ toString (pre.length + 1))
            (toString (pre.length + 1)) ++
          render_items (pre.length + 2) post) ∧
    (it = Json.obj kvs →
      get_knowledge_base (KBFile.content (Json.arr (pre ++ it :: post))) =
        kb_header ++ render_items 1 pre ++
          qa_block (pre.length + 1)
            (match jlookup kvs "question" with
             | some v => pyStr v
             | none => "No question provided")
            (match jlookup kvs "answer" with
             | some v => pyStr v
             | none => "No answer") ++
          render_items (pre.length + 2) post) := by
  have hsplit : get_knowledge_base (KBFile.content (Json.arr (pre ++ it :: post))) =
      kb_header ++ (render_items 1 pre ++
        (render_item (pre.length + 1) it ++ render_items (pre.length + 2) post)) := by
    simp only [get_knowledge_base]
    rw [render_items_append pre (it :: post) 1, render_items]
    have h1 : 1 + pre.length = pre.length + 1 := by omega
    have h2 : pre.length + 1 + 1 = pre.length + 2 := by omega
    rw [h1, h2]
  constructor
  · intro hobj
    rw [hsplit]
    have : render_item (pre.length + 1) it =
        qa_block (pre.length + 1) ("Item " ++ toString (pre.length + 1))
          (toString (pre.length + 1)) := by
      cases it with
      | obj kvs2 => simp [Json.isObj] at hobj
      | null => rfl
      | bool b => rfl
      | num n => rfl
      | str s => rfl
      | arr xs => rfl
    rw [this]
    simp [String.append_assoc]
  · intro hkvs
    subst hkvs
    rw [hsplit]
    have : render_item (pre.length + 1) (Json.obj kvs) =
        qa_block (pre.length + 1)
          (match jlookup kvs "question" with
           | some v => pyStr v
           | none => "No question provided")
          (match jlookup kvs "answer" with
           | some v => pyStr v
           | none => "No answer") := by
      simp only [render_item]
    rw [this]
    simp [String.append_assoc]

/-- Witness for C10: a bare number is rendered as Item 1 with answer 1, and
an empty record is rendered with both defaults. -/
theorem c10_defaults_and_nondict_witness :
    get_knowledge_base (KBFile.content (Json.arr [Json.num 3])) =
      "Here is the retrieved knowledge base:\n\nQ1: Item 1\nA1: 1\n\n" ∧
    get_knowledge_base (KBFile.content (Json.arr [Json.obj [("x", Json.num 0)]])) =
      "Here is the retrieved knowledge base:\n\nQ1: No question provided\nA1: No answer\n\n" :=
  ⟨(c10_defaults_and_nondict [] [] (Json.num 3) []).1 rfl,
   (c10_defaults_and_nondict [] [] (Json.obj [("x", Json.num 0)])
      [("x", Json.num 0)]).2 rfl⟩

/-- The tool-call loop, when every requested call has parseable arguments
and a non-empty result, appends one tool message and records one invocation
event per call, both in emission order. -/
theorem run_tool_calls_ok (env : Env) (tcs : List ToolCall) :
    ∀ (msgs : List Msg) (tr : List Event),
      (∀ tc ∈ tcs, (json_loads tc.args).isSome = true ∧
          (env.call_tool tc.name (parsed_args tc)).content ≠ []) →
      run_tool_calls env tcs msgs tr =
        (some (msgs ++ tcs.map (tool_result_msg env)), tr ++ tcs.map invoke_event) := by
  induction tcs with
  | nil => intro msgs tr _; simp [run_tool_calls]
  | cons tc rest ih =>
    intro msgs tr h
    obtain ⟨h1, h2⟩ := h tc (List.mem_cons_self tc rest)
    obtain ⟨j, hj⟩ := Option.isSome_iff_exists.mp h1
    have hpa : parsed_args tc = j := by simp [parsed_args, hj]
    rw [hpa] at h2
    rcases hcontent : (env.call_tool tc.name j).content with _ | ⟨b, tl⟩
    · exact absurd hcontent h2
    · have hrest := ih (msgs ++ [Msg.tool tc.id b.text])
        (tr ++ [Event.toolInvoke tc.name j])
        (fun t ht => h t (List.mem_cons_of_mem _ ht))
      simp only [run_tool_calls, hj, hcontent]
      rw [hrest]
      simp [tool_result_msg, invoke_event, hpa, first_content_text, hcontent]

/-- C1: when the first completion requests the single operation
get_knowledge_base with empty arguments, process_query performs exactly one
tool invocation, appends its first content element as a tool message tagged
with the originating call id, issues a second completion with tool_choice
none over the extended conversation, and returns that response content. -/
theorem c1_single_kb_call (env : Env) (query cid astr : String)
    (b : ContentBlock) (tl : List ContentBlock)
    (h1 : (env.complete (first_request env query)).tool_calls =
        [⟨cid, "get_knowledge_base", astr⟩])
    (h2 : json_loads astr = some (Json.obj []))
    (h3 : (env.call_tool "get_knowledge_base" (Json.obj [])).content = b :: tl) :
    process_query env query =
      (some (env.complete ⟨env.model,
          [Msg.user query, Msg.assistant (env.complete (first_request env query)),
           Msg.tool cid b.text], get_mcp_tools env, "none"⟩).content,
       [Event.completion (first_request env query),
        Event.toolInvoke "get_knowledge_base" (Json.obj []),
        Event.completion ⟨env.model,
          [Msg.user query, Msg.assistant (env.complete (first_request env query)),
           Msg.tool cid b.text], get_mcp_tools env, "none"⟩]) := by
  have hfr : (⟨env.model, [Msg.user query], get_mcp_tools env, "auto"⟩ : ChatRequest) =
      first_request env query := rfl
  simp only [process_query, hfr, h1]
  simp only [run_tool_calls, h2, h3]
  rfl

/-- Witness for C1 at a concrete environment. -/
theorem c1_single_kb_call_witness :
    process_query env_kb "What is X?" =
      (some (env_kb.complete ⟨env_kb.model,
          [Msg.user "What is X?",
           Msg.assistant (env_kb.complete (first_request env_kb "What is X?")),
           Msg.tool "call_1" "kb text"], get_mcp_tools env_kb, "none"⟩).content,
       [Event.completion (first_request env_kb "What is X?"),
        Event.toolInvoke "get_knowledge_base" (Json.obj []),
        Event.completion ⟨env_kb.model,
          [Msg.user "What is X?",
           Msg.assistant (env_kb.complete (first_request env_kb "What is X?")),
           Msg.tool "call_1" "kb text"], get_mcp_tools env_kb, "none"⟩]) :=
  c1_single_kb_call env_kb "What is X?" "call_1" "\x7b\x7d" ⟨"kb text"⟩ []
    rfl rfl rfl

/-- C2: when the first completion carries zero tool calls, process_query
returns its content verbatim and the trace holds that single completion
request and no tool invocation. -/
theorem c2_no_tool_calls (env : Env) (query : String)
    (h : (env.complete (first_request env query)).tool_calls = []) :
    process_query env query =
      (some (env.complete (first_request env query)).content,
       [Event.completion (first_request env query)]) := by
  have hfr : (⟨env.model, [Msg.user query], get_mcp_tools env, "auto"⟩ : ChatRequest) =
      first_request env query := rfl
  simp only [process_query, hfr, h]

/-- Witness for C2 at a concrete environment. -/
theorem c2_no_tool_calls_witness :
    process_query env_direct "What is X?" =
      (some (env_direct.complete (first_request env_direct "What is X?")).content,
       [Event.completion (first_request env_direct "What is X?")]) :=
  c2_no_tool_calls env_direct "What is X?" rfl

/-- C3: when the first completion carries tool calls, each with parseable
arguments and a non-empty result, process_query invokes them strictly in
emission order, and the tool messages of the final conversation carry the
first content element of each result in that same order. -/
theorem c3_sequential_order (env : Env) (query : String)
    (h1 : (env.complete (first_request env query)).tool_calls ≠ [])
    (h2 : ∀ tc ∈ (env.complete (first_request env query)).tool_calls,
        (json_loads tc.args).isSome = true ∧
        (env.call_tool tc.name (parsed_args tc)).content ≠ []) :
    process_query env query =
      (some (env.complete
          (final_request env query (env.complete (first_request env query)))).content,
       Event.completion (first_request env query) ::
         ((env.complete (first_request env query)).tool_calls.map invoke_event ++
          [Event.completion
            (final_request env query (env.complete (first_request env query)))])) := by
  rcases ham : (env.complete (first_request env query)).tool_calls with _ | ⟨tc, rest⟩
  · exact absurd ham h1
  · have h2x : ∀ t ∈ tc :: rest, (json_loads t.args).isSome = true ∧
        (env.call_tool t.name (parsed_args t)).content ≠ [] := by
      rw [← ham]; exact h2
    have hrun := run_tool_calls_ok env (tc :: rest)
      [Msg.user query, Msg.assistant (env.complete (first_request env query))]
      [Event.completion (first_request env query)] h2x
    have hfr : (⟨env.model, [Msg.user query], get_mcp_tools env, "auto"⟩ : ChatRequest) =
        first_request env query := rfl
    simp only [process_query, hfr, ham]
    rw [hrun]
    simp only [final_request, ham]
    simp

/-- Witness for C3 at an environment requesting two tool calls. -/
theorem c3_sequential_order_witness :
    process_query env_two "What is X?" =
      (some (env_two.complete
          (final_request env_two "What is X?"
            (env_two.complete (first_request env_two "What is X?")))).content,
       Event.completion (first_request env_two "What is X?") ::
         ((env_two.complete (first_request env_two "What is X?")).tool_calls.map
            invoke_event ++
          [Event.completion
            (final_request env_two "What is X?"
              (env_two.complete (first_request env_two "What is X?")))])) :=
  c3_sequential_order env_two "What is X?"
    (by intro h; exact List.noConfusion h)
    (by
      intro tc htc
      rcases List.mem_cons.mp htc with h | h
      · subst h
        exact ⟨rfl, fun hx => List.noConfusion hx⟩
      · rcases List.mem_cons.mp h with h | h
        · subst h
          exact ⟨rfl, fun hx => List.noConfusion hx⟩
        · exact absurd h (List.not_mem_nil tc))

/-- C8: an exception raised while processing one query is caught and
reported, and the loop continues with the remaining input lines. -/
theorem c8_error_continues (process : String → Except String String)
    (line : String) (rest : List String) (e : String)
    (hq : py_lower (py_strip line) ≠ "quit")
    (he : process (py_strip line) = Except.error e) :
    chat_loop process (line :: rest) =
      LoopEvent.error_report e :: chat_loop process rest := by
  have hb : (py_lower (py_strip line) == "quit") = false :=
    beq_eq_false_iff_ne.mpr hq
  simp only [chat_loop, hb, Bool.false_eq_true, if_false, he]

/-- Witness for C8: the failing first query is reported and the second one
is still processed. -/
theorem c8_error_continues_witness :
    chat_loop proc_w ["boom", "ok"] =
      LoopEvent.error_report "fail" :: chat_loop proc_w ["ok"] :=
  c8_error_continues proc_w "boom" ["ok"] "fail" (by decide) rfl

/-- C9: an input line that strips and lowercases to quit terminates the
loop, with no further processing of that line or of the remaining input. -/
theorem c9_quit_exits (process : String → Except String String)
    (line : String) (rest : List String)
    (hq : py_lower (py_strip line) = "quit") :
    chat_loop process (line :: rest) = [LoopEvent.goodbye] := by
  simp only [chat_loop, hq]
  simp

/-- Witness for C9: a mixed-case quit with surrounding whitespace exits
even though the processor would have answered. -/
theorem c9_quit_exits_witness :
    chat_loop proc_w ["  QuIt  ", "next"] = [LoopEvent.goodbye] :=
  c9_quit_exits proc_w "  QuIt  " ["next"] (by decide)
